import Mathlib

/-! # Verification of the gcsf mount-lifecycle orchestrator (`src/main.rs`)

Shallow embedding of the gcsf binary's `main.rs`: the mount-option
construction and two-phase mount sequencing of `mount_gcsf`, the
configuration loading of `load_conf`, and the shutdown-flag wait loop.
External collaborators (the fuse mount primitive, the xdg directory
resolver, the config-file parser) are modelled as parameters/oracles so
that theorems quantify over all of their behaviours.
-/

namespace Gcsf

set_option maxRecDepth 20000

/-- Modelled from the spec: the typed `Config` structure lives in the
external `gcsf` library crate, not in `src/`; its fields follow the
spec's data model (a debug flag, cache TTLs and item limit, statfs TTL,
sync interval, ordered mount-option strings, authorization-mode flag,
and an optional derived credential-file path `token_path`, the only
field `main.rs` assigns directly). -/
structure Config where
  debug : Bool
  cache_max_seconds : Nat
  cache_max_items : Nat
  cache_statfs_seconds : Nat
  sync_interval : Nat
  mount_options : List String
  authorize_using_code : Bool
  token_path : Option String
deriving Repr, DecidableEq

/-- The `DEFAULT_CONFIG` string constant of `main.rs` (lines 36–72),
with Rust escape sequences resolved: the leading `\`-newline swallows
nothing but the newline, `\"` is a quote, and the literal ends in a
newline. -/
def DEFAULT_CONFIG : String :=
  "### This is the configuration file that GCSF uses.\n### It should be placed in $XDG_CONFIG_HOME/gcsf/gcsf.toml, which is usually\n### defined as $HOME/.config/gcsf/gcsf.toml\n\n# Show additional logging info?\ndebug = false\n\n# How long to cache the contents of a file after it has been accessed.\ncache_max_seconds = 300\n\n# How how many files to cache.\ncache_max_items = 20\n\n# How long to cache the size and capacity of the filesystem. These are the\n# values reported by `df`.\ncache_statfs_seconds = 10\n\n# How many seconds to wait before checking for remote changes and updating them\n# locally.\nsync_interval = 10\n\n# Mount options\nmount_options = [\n    \"fsname=GCSF\",\n    \"allow_root\",\n    \"big_writes\",\n    \"max_write=131072\"\n]\n\n# If set to true, Google Drive will provide a code after logging in and\n# authorizing GCSF. This code must be copied and pasted into GCSF in order to\n# complete the process. Useful for running GCSF on a remote server.\n#\n# If set to false, Google Drive will attempt to communicate with GCSF directly.\n# This is usually faster and more convenient.\nauthorize_using_code = false\n"

/-! ## Mount-option construction (`mount_gcsf`, lines 75–80)

`iter::repeat("-o").interleave_shortest(vals)` alternately takes one
element from the infinite `"-o"` stream and one from `vals`; it stops
the first time the iterator whose turn it is is exhausted.  With the
first iterator infinite this yields `-o v0 -o v1 … -o v(n-1) -o`:
after the last value the `"-o"` stream still produces one element, and
only then does `vals` run out.  `interleaveShortestRepeat` computes
exactly that sequence. -/

/-- Result of `iter::repeat(flag).interleave_shortest(vals)` as a list. -/
def interleaveShortestRepeat (flag : String) : List String → List String
  | [] => [flag]
  | v :: rest => flag :: v :: interleaveShortestRepeat flag rest

/-- The `options` vector of `mount_gcsf`: interleave `"-o"` with the
mount-option values, then `options.pop()` drops the trailing element. -/
def buildOptions (vals : List String) : List String :=
  (interleaveShortestRepeat "-o" vals).dropLast

theorem interleaveShortestRepeat_ne_nil (flag : String) (vals : List String) :
    interleaveShortestRepeat flag vals ≠ [] := by
  cases vals <;> simp [interleaveShortestRepeat]

theorem buildOptions_nil : buildOptions [] = [] := rfl

theorem buildOptions_cons (v : String) (rest : List String) :
    buildOptions (v :: rest) = "-o" :: v :: buildOptions rest := by
  have h := interleaveShortestRepeat_ne_nil "-o" rest
  unfold buildOptions
  rw [show interleaveShortestRepeat "-o" (v :: rest)
      = "-o" :: v :: interleaveShortestRepeat "-o" rest from rfl]
  rw [List.dropLast_cons₂]
  cases hk : interleaveShortestRepeat "-o" rest with
  | nil => exact absurd hk h
  | cons a t => rw [List.dropLast_cons₂]

theorem buildOptions_length (vals : List String) :
    (buildOptions vals).length = 2 * vals.length := by
  induction vals with
  | nil => rfl
  | cons v rest ih => rw [buildOptions_cons]; simp [ih]; omega

theorem buildOptions_getElem_even (vals : List String) (i : Nat)
    (hi : i < vals.length) : (buildOptions vals)[2 * i]? = some "-o" := by
  induction vals generalizing i with
  | nil => simp at hi
  | cons v rest ih =>
    rw [buildOptions_cons]
    cases i with
    | zero => rfl
    | succ j =>
      have h2 : 2 * (j + 1) = (2 * j) + 1 + 1 := by omega
      rw [h2, List.getElem?_cons_succ, List.getElem?_cons_succ]
      exact ih j (by simpa using hi)

theorem buildOptions_getElem_odd (vals : List String) (i : Nat)
    (hi : i < vals.length) : (buildOptions vals)[2 * i + 1]? = vals[i]? := by
  induction vals generalizing i with
  | nil => simp at hi
  | cons v rest ih =>
    rw [buildOptions_cons]
    cases i with
    | zero => simp
    | succ j =>
      have h2 : 2 * (j + 1) + 1 = (2 * j + 1) + 1 + 1 := by omega
      rw [h2, List.getElem?_cons_succ, List.getElem?_cons_succ,
        List.getElem?_cons_succ, ih j (by simpa using hi)]

theorem buildOptions_getLast? (vals : List String) (hne : vals ≠ []) :
    (buildOptions vals).getLast? = vals.getLast? := by
  induction vals with
  | nil => simp at hne
  | cons v rest ih =>
    rw [buildOptions_cons]
    cases rest with
    | nil => rfl
    | cons w rest' =>
      rw [buildOptions_cons]
      simp only [List.getLast?_cons_cons]
      rw [buildOptions_cons] at ih
      simpa using ih (by simp)

/-! ## Configuration loading (`load_conf`, lines 122–149)

External collaborators are oracles: `XdgEnv.placeConfigFile` models
`xdg::BaseDirectories::with_prefix("gcsf").place_config_file` (returns
the resolved path, or fails when the configuration directory cannot be
created); `parse` models `config::Config::merge` followed by
`try_into::<Config>()` (both failure modes collapse to an error — in
the source the first panics via `expect` and the second propagates
with `?`, and both are fatal); `createOk` models whether
`fs::File::create` + `write_all` succeed.  The file system is a map
from path to content; `place_config_file` itself never touches file
contents (it only creates parent directories). -/

structure XdgEnv where
  placeConfigFile : String → Option String

structure FsState where
  files : String → Option String

inductive LoadErr where
  | configDir
  | createFile
  | invalidConfig
deriving Repr, DecidableEq

/-- Reading the settings file, merging it and injecting the derived
token path (`load_conf` lines 136–148), after the first-run write has
been handled. -/
def loadParsePhase (env : XdgEnv) (parse : String → Except Unit Config)
    (fs : FsState) (configPath : String) : Except LoadErr Config × FsState :=
  match env.placeConfigFile "auth_token.json" with
  | none => (.error .configDir, fs)
  | some tokenPath =>
    match fs.files configPath with
    | none => (.error .invalidConfig, fs)
    | some content =>
      match parse content with
      | .error _ => (.error .invalidConfig, fs)
      | .ok c => (.ok { c with token_path := some tokenPath }, fs)

/-- The function `load_conf` (lines 122–149): resolve the settings path, write the
default template if the file is absent, resolve the token path, parse,
and overwrite `token_path` with the derived path.  Returns the result
together with the file-system state after the call. -/
def load_conf (env : XdgEnv) (parse : String → Except Unit Config)
    (createOk : Bool) (fs : FsState) : Except LoadErr Config × FsState :=
  match env.placeConfigFile "gcsf.toml" with
  | none => (.error .configDir, fs)
  | some configPath =>
    match fs.files configPath with
    | none =>
      if createOk then
        loadParsePhase env parse
          ⟨fun p => if p = configPath then some DEFAULT_CONFIG else fs.files p⟩
          configPath
      else (.error .createFile, fs)
    | some _ => loadParsePhase env parse fs configPath

/-- The `logout` branch of `main` (line 163):
`config.token_path.as_ref().unwrap()`, with the panic of `unwrap`
modelled as an error value. -/
def logoutTokenUnwrap (c : Config) : Except Unit String :=
  match c.token_path with
  | some s => .ok s
  | none => .error ()

/-! ## The two-phase mount (`mount_gcsf`, lines 74–120)

`mount_gcsf` is modelled as the trace of events it performs, with the
outcome of each fallible collaborator call supplied by a `MountEnv`
oracle (the fuse probe mount, the fuse real mount — both functions of
the option list actually passed — and the ctrlc handler
registration).  `Ev.handlerPanic` models the `expect` panic when
`ctrlc::set_handler` fails. -/

inductive Ev where
  | probeMountAttempt
  | probeMountOk
  | probeSessionDrop
  | probeMountFail
  | gcsfWithConfig
  | realMountAttempt
  | realMountOk
  | realMountFail
  | handlerInstall
  | handlerPanic
  | waitLoopEnter
deriving Repr, DecidableEq

structure MountEnv where
  probeMount : List String → Bool
  realMount : List String → Bool
  handlerOk : Bool

/-- The event trace of one `mount_gcsf` call. -/
def mount_gcsf (env : MountEnv) (config : Config) : List Ev :=
  let options := buildOptions config.mount_options
  if env.probeMount options then
    Ev.probeMountAttempt :: Ev.probeMountOk :: Ev.probeSessionDrop ::
    Ev.gcsfWithConfig :: Ev.realMountAttempt ::
    (if env.realMount options then
      Ev.realMountOk ::
      (if env.handlerOk then [Ev.handlerInstall, Ev.waitLoopEnter]
       else [Ev.handlerPanic])
     else [Ev.realMountFail])
  else [Ev.probeMountAttempt, Ev.probeMountFail]

/-! ## The shutdown flag and the wait loop (lines 105–115)

`running` is the `Arc<AtomicBool>`; the signal handler stores `false`;
the wait loop polls and keeps running exactly while the flag reads
`true`.  Handler firings and loop polls interleave arbitrarily, so the
system is a step relation on the pair (flag, loop exited). -/

structure LoopState where
  flag : Bool
  exited : Bool
deriving Repr, DecidableEq

/-- State after `AtomicBool::new(true)`, before the loop has exited. -/
def initLoopState : LoopState := ⟨true, false⟩

/-- The signal handler body: `r.store(false, Ordering::SeqCst)`. -/
def signalStep (s : LoopState) : LoopState := { s with flag := false }

/-- One poll of `while running.load(Ordering::SeqCst)`: a loop that has
not exited keeps running when the flag reads `true` and exits when it
reads `false`. -/
def pollStep (s : LoopState) : LoopState :=
  if s.exited then s
  else if s.flag then s
  else { s with exited := true }

/-- Interleaving of asynchronous handler firings with loop polls. -/
inductive LoopStep : LoopState → LoopState → Prop where
  | signal (s : LoopState) : LoopStep s (signalStep s)
  | poll (s : LoopState) : LoopStep s (pollStep s)

/-! ## Substring checking, used to state what the default template contains -/

/-- Boolean check that `pat` is a leading segment of `l`. -/
def leadsChars : List Char → List Char → Bool
  | [], _ => true
  | _ :: _, [] => false
  | a :: pa, b :: bs => a == b && leadsChars pa bs

/-- Boolean check that `pat` occurs contiguously somewhere in `l`. -/
def occursChars (pat : List Char) : List Char → Bool
  | [] => leadsChars pat []
  | b :: bs => leadsChars pat (b :: bs) || occursChars pat bs

/-- Boolean check that `pat` occurs contiguously in the string `s`. -/
def hasSubstr (s pat : String) : Bool :=
  occursChars pat.data s.data

/-! ## Helper lemmas about `load_conf` -/

theorem loadParsePhase_snd (env : XdgEnv) (parse : String → Except Unit Config)
    (fs : FsState) (configPath : String) :
    (loadParsePhase env parse fs configPath).2 = fs := by
  unfold loadParsePhase
  split
  · rfl
  · split
    · rfl
    · split <;> rfl

theorem loadParsePhase_ok_token (env : XdgEnv)
    (parse : String → Except Unit Config) (fs : FsState)
    (configPath tokenPath : String) (config : Config) (fsOut : FsState)
    (htok : env.placeConfigFile "auth_token.json" = some tokenPath)
    (h : loadParsePhase env parse fs configPath = (.ok config, fsOut)) :
    config.token_path = some tokenPath := by
  unfold loadParsePhase at h
  split at h
  · simp at h
  next tp heq =>
    split at h
    · simp at h
    next content hcf =>
      split at h
      · simp at h
      next c hp =>
        simp only [Prod.mk.injEq, Except.ok.injEq] at h
        rw [htok] at heq
        injection heq with heq'
        rw [← h.1, heq']

theorem loadParsePhase_ok_isSome (env : XdgEnv)
    (parse : String → Except Unit Config) (fs : FsState)
    (configPath : String) (config : Config) (fsOut : FsState)
    (h : loadParsePhase env parse fs configPath = (.ok config, fsOut)) :
    config.token_path.isSome = true := by
  unfold loadParsePhase at h
  split at h
  · simp at h
  next tp heq =>
    split at h
    · simp at h
    next content hcf =>
      split at h
      · simp at h
      next c hp =>
        simp only [Prod.mk.injEq, Except.ok.injEq] at h
        rw [← h.1]
        rfl

theorem loadParsePhase_fst (env : XdgEnv) (parse : String → Except Unit Config)
    (fs : FsState) (configPath tokenPath content : String)
    (htok : env.placeConfigFile "auth_token.json" = some tokenPath)
    (hcf : fs.files configPath = some content) :
    (loadParsePhase env parse fs configPath).1
      = (match parse content with
         | .error _ => .error LoadErr.invalidConfig
         | .ok c => .ok { c with token_path := some tokenPath }) := by
  unfold loadParsePhase
  split
  next heq => rw [htok] at heq; simp at heq
  next tp heq =>
    rw [htok] at heq
    injection heq with h1
    subst h1
    split
    next hf => rw [hcf] at hf; simp at hf
    next c2 hf =>
      rw [hcf] at hf
      injection hf with h2
      subst h2
      cases parse content <;> rfl

/-- When the settings file already exists, `load_conf` goes straight to
the parse phase over the unchanged file system. -/
theorem load_conf_exists (env : XdgEnv) (parse : String → Except Unit Config)
    (createOk : Bool) (fs : FsState) (configPath content : String)
    (hcp : env.placeConfigFile "gcsf.toml" = some configPath)
    (hex : fs.files configPath = some content) :
    load_conf env parse createOk fs = loadParsePhase env parse fs configPath := by
  unfold load_conf
  split
  next heq => rw [hcp] at heq; simp at heq
  next cp heq =>
    rw [hcp] at heq
    injection heq with h1
    subst h1
    split
    next hf => rw [hex] at hf; simp at hf
    next c2 hf => rfl

/-- When the settings file is absent and creation succeeds, `load_conf`
first writes `DEFAULT_CONFIG` and then runs the parse phase over the
updated file system. -/
theorem load_conf_absent (env : XdgEnv) (parse : String → Except Unit Config)
    (createOk : Bool) (fs : FsState) (configPath : String)
    (hcp : env.placeConfigFile "gcsf.toml" = some configPath)
    (habs : fs.files configPath = none)
    (hcr : createOk = true) :
    load_conf env parse createOk fs
      = loadParsePhase env parse
          ⟨fun p => if p = configPath then some DEFAULT_CONFIG else fs.files p⟩
          configPath := by
  unfold load_conf
  split
  next heq => rw [hcp] at heq; simp at heq
  next cp heq =>
    rw [hcp] at heq
    injection heq with h1
    subst h1
    split
    next hf => rw [hcr]; rfl
    next c2 hf => rw [habs] at hf; simp at hf

/-! ## The claims -/

/-- Claim C1: for a mount-options list of length `n`, the option list
built by `mount_gcsf` has length `2 * n`, alternates the `"-o"` flag
marker (even indices) with the option values in order (odd indices),
and never ends on a dangling `"-o"`: when the list is nonempty its last
element is the last option value. -/
theorem c1_mount_option_pairing (vals : List String) :
    (buildOptions vals).length = 2 * vals.length ∧
    (∀ i, i < vals.length → (buildOptions vals)[2 * i]? = some "-o") ∧
    (∀ i, i < vals.length → (buildOptions vals)[2 * i + 1]? = vals[i]?) ∧
    (vals ≠ [] → (buildOptions vals).getLast? = vals.getLast?) :=
  ⟨buildOptions_length vals,
   fun i hi => buildOptions_getElem_even vals i hi,
   fun i hi => buildOptions_getElem_odd vals i hi,
   buildOptions_getLast? vals⟩

theorem c1_mount_option_pairing_witness :
    (buildOptions ["fsname=GCSF", "allow_root"]).length = 2 * 2 ∧
    (buildOptions ["fsname=GCSF", "allow_root"])[2 * 1]? = some "-o" ∧
    (buildOptions ["fsname=GCSF", "allow_root"])[2 * 1 + 1]?
      = (["fsname=GCSF", "allow_root"] : List String)[1]? ∧
    (buildOptions ["fsname=GCSF", "allow_root"]).getLast?
      = (["fsname=GCSF", "allow_root"] : List String).getLast? := by
  obtain ⟨h1, h2, h3, h4⟩ := c1_mount_option_pairing ["fsname=GCSF", "allow_root"]
  exact ⟨h1, h2 1 (by decide), h3 1 (by decide), h4 (by decide)⟩

/-- Claim C2: whenever `load_conf` succeeds, the returned
`Configuration`'s `token_path` equals `some` of the derived
`auth_token.json` path from the per-user configuration directory —
never a value produced by parsing the settings file (the parser here is
universally quantified, so in particular it may return a configuration
carrying any `token_path` read from the file). -/
theorem c2_token_path_always_derived (env : XdgEnv)
    (parse : String → Except Unit Config) (createOk : Bool) (fs : FsState)
    (tokenPath : String) (config : Config) (fsOut : FsState)
    (htok : env.placeConfigFile "auth_token.json" = some tokenPath)
    (h : load_conf env parse createOk fs = (.ok config, fsOut)) :
    config.token_path = some tokenPath := by
  unfold load_conf at h
  split at h
  · simp at h
  next configPath hcp =>
    split at h
    · split at h
      · exact loadParsePhase_ok_token _ _ _ _ _ _ _ htok h
      · simp at h
    · exact loadParsePhase_ok_token _ _ _ _ _ _ _ htok h

/-- Claim C3: with the settings file absent, a first `load_conf` call
creates it (with the default content), and a second call leaves the
file-system state exactly as the first left it; more generally, on any
state in which the settings file exists, `load_conf` changes nothing. -/
theorem c3_idempotent_default_creation (env : XdgEnv)
    (parse : String → Except Unit Config) (createOk : Bool) (fs : FsState)
    (configPath : String)
    (hcp : env.placeConfigFile "gcsf.toml" = some configPath) :
    ((fs.files configPath).isSome = true →
      (load_conf env parse createOk fs).2 = fs) ∧
    (fs.files configPath = none → createOk = true →
      ((load_conf env parse createOk fs).2.files configPath
          = some DEFAULT_CONFIG ∧
       (load_conf env parse createOk ((load_conf env parse createOk fs).2)).2
          = (load_conf env parse createOk fs).2)) := by
  constructor
  · intro hex
    obtain ⟨content, hc⟩ := Option.isSome_iff_exists.mp hex
    rw [load_conf_exists env parse createOk fs configPath content hcp hc,
      loadParsePhase_snd]
  · intro habs hcr
    have hsnd : (load_conf env parse createOk fs).2
        = ⟨fun p => if p = configPath then some DEFAULT_CONFIG
                    else fs.files p⟩ := by
      rw [load_conf_absent env parse createOk fs configPath hcp habs hcr,
        loadParsePhase_snd]
    have hfile : (load_conf env parse createOk fs).2.files configPath
        = some DEFAULT_CONFIG := by
      rw [hsnd]
      simp
    refine ⟨hfile, ?_⟩
    rw [load_conf_exists env parse createOk _ configPath DEFAULT_CONFIG hcp
      hfile, loadParsePhase_snd]

/-- Claim C4: on first run (settings file absent), `load_conf` writes
the `DEFAULT_CONFIG` template verbatim, and parsing is attempted only
after the write (the parsed content IS the just-written template); the
template contains exactly the documented key assignments: `debug =
false`, `cache_max_seconds = 300`, `cache_max_items = 20`,
`cache_statfs_seconds = 10`, `sync_interval = 10`, the four-element
`mount_options` list, and `authorize_using_code = false`. -/
theorem c4_default_template_written_before_parse (env : XdgEnv)
    (parse : String → Except Unit Config) (createOk : Bool) (fs : FsState)
    (configPath tokenPath : String)
    (hcp : env.placeConfigFile "gcsf.toml" = some configPath)
    (habs : fs.files configPath = none)
    (hcr : createOk = true)
    (htok : env.placeConfigFile "auth_token.json" = some tokenPath) :
    (load_conf env parse createOk fs).2.files configPath
        = some DEFAULT_CONFIG ∧
    (load_conf env parse createOk fs).1
        = (match parse DEFAULT_CONFIG with
           | .error _ => .error LoadErr.invalidConfig
           | .ok c => .ok { c with token_path := some tokenPath }) ∧
    hasSubstr DEFAULT_CONFIG "debug = false" = true ∧
    hasSubstr DEFAULT_CONFIG "cache_max_seconds = 300" = true ∧
    hasSubstr DEFAULT_CONFIG "cache_max_items = 20" = true ∧
    hasSubstr DEFAULT_CONFIG "cache_statfs_seconds = 10" = true ∧
    hasSubstr DEFAULT_CONFIG "sync_interval = 10" = true ∧
    hasSubstr DEFAULT_CONFIG
      "mount_options = [\n    \"fsname=GCSF\",\n    \"allow_root\",\n    \"big_writes\",\n    \"max_write=131072\"\n]" = true ∧
    hasSubstr DEFAULT_CONFIG "authorize_using_code = false" = true := by
  have heq := load_conf_absent env parse createOk fs configPath hcp habs hcr
  have hfile : ((⟨fun p => if p = configPath then some DEFAULT_CONFIG
      else fs.files p⟩ : FsState)).files configPath = some DEFAULT_CONFIG := by
    simp
  refine ⟨?_, ?_, by decide, by decide, by decide, by decide, by decide,
    by decide, by decide⟩
  · rw [heq, loadParsePhase_snd]
    exact hfile
  · rw [heq, loadParsePhase_fst _ _ _ _ tokenPath DEFAULT_CONFIG htok hfile]

/-- Claim C5: if the probe mount (the no-op `NullFS` mount) fails,
`mount_gcsf` returns early: neither the real filesystem construction
`GCSF::with_config` nor the real mount attempt occur in that call. -/
theorem c5_probe_isolation (env : MountEnv) (config : Config)
    (h : env.probeMount (buildOptions config.mount_options) = false) :
    Ev.gcsfWithConfig ∉ mount_gcsf env config ∧
    Ev.realMountAttempt ∉ mount_gcsf env config := by
  simp [mount_gcsf, h]

/-- Claim C6: in every execution of `mount_gcsf`, the probe session is
dropped before `GCSF::with_config` runs and before the real mount
session can come up (so the two sessions are never live at the same
time), and at most one real mount session comes up per call. -/
theorem c6_probe_teardown_before_real (env : MountEnv) (config : Config) :
    (Ev.gcsfWithConfig ∈ mount_gcsf env config →
      Ev.probeSessionDrop ∈ mount_gcsf env config ∧
      (mount_gcsf env config).indexOf Ev.probeSessionDrop
        < (mount_gcsf env config).indexOf Ev.gcsfWithConfig) ∧
    (Ev.realMountOk ∈ mount_gcsf env config →
      Ev.probeSessionDrop ∈ mount_gcsf env config ∧
      (mount_gcsf env config).indexOf Ev.probeSessionDrop
        < (mount_gcsf env config).indexOf Ev.realMountOk) ∧
    (mount_gcsf env config).count Ev.realMountOk ≤ 1 := by
  cases hp : env.probeMount (buildOptions config.mount_options) <;>
    cases hr : env.realMount (buildOptions config.mount_options) <;>
      cases hh : env.handlerOk <;>
        simp [mount_gcsf, hp, hr, hh]

/-- Claim C7: when the settings file exists but its content fails to
parse/merge (the external parser errors on it), `load_conf` returns the
`invalidConfig` error — never a partially-merged or default-only
configuration. -/
theorem c7_invalid_config_fatal (env : XdgEnv)
    (parse : String → Except Unit Config) (createOk : Bool) (fs : FsState)
    (configPath content tokenPath : String)
    (hcp : env.placeConfigFile "gcsf.toml" = some configPath)
    (hex : fs.files configPath = some content)
    (htok : env.placeConfigFile "auth_token.json" = some tokenPath)
    (hbad : parse content = .error ()) :
    (load_conf env parse createOk fs).1 = .error LoadErr.invalidConfig := by
  rw [load_conf_exists env parse createOk fs configPath content hcp hex,
    loadParsePhase_fst env parse fs configPath tokenPath content htok hex,
    hbad]

/-- Claim C8: if installing the shutdown signal handler fails after a
successful real mount, the wait loop is never entered (the `expect`
panic is fatal); if registration succeeds after a successful probe and
real mount, the handler is installed and the wait loop is entered. -/
theorem c8_signal_setup_fatal (env : MountEnv) (config : Config) :
    (env.handlerOk = false → Ev.waitLoopEnter ∉ mount_gcsf env config) ∧
    (env.probeMount (buildOptions config.mount_options) = true →
      env.realMount (buildOptions config.mount_options) = true →
      env.handlerOk = true →
      Ev.handlerInstall ∈ mount_gcsf env config ∧
      Ev.waitLoopEnter ∈ mount_gcsf env config) := by
  cases hp : env.probeMount (buildOptions config.mount_options) <;>
    cases hr : env.realMount (buildOptions config.mount_options) <;>
      cases hh : env.handlerOk <;>
        simp [mount_gcsf, hp, hr, hh]

/-- Claim C9: the shutdown flag is created `true`; the only writer is
the signal handler, which stores `false` (idempotently); along any
sequence of steps of the wait-loop system the flag is monotone (once
`false`, it stays `false` and never reverts to `true`); and a poll of
the wait loop exits exactly when it reads the flag as `false`. -/
theorem c9_shutdown_flag_monotone :
    initLoopState.flag = true ∧
    (∀ s : LoopState, (signalStep s).flag = false ∧
      signalStep (signalStep s) = signalStep s) ∧
    (∀ s t : LoopState, LoopStep s t → t.flag = s.flag ∨ t.flag = false) ∧
    (∀ s t : LoopState, Relation.ReflTransGen LoopStep s t →
      s.flag = false → t.flag = false) ∧
    (∀ s : LoopState, s.exited = false →
      ((pollStep s).exited = true ↔ s.flag = false)) := by
  refine ⟨rfl, fun s => ⟨rfl, rfl⟩, ?_, ?_, ?_⟩
  · intro s t hst
    cases hst with
    | signal => exact Or.inr rfl
    | poll =>
      left
      unfold pollStep
      split
      · rfl
      · split
        · rfl
        · rfl
  · intro s t hst
    induction hst with
    | refl => exact fun h => h
    | tail _ hstep ih =>
      intro hs
      have hmid := ih hs
      rename_i u v _
      cases hstep with
      | signal => exact rfl
      | poll =>
        unfold pollStep
        split
        · exact hmid
        · split
          · exact hmid
          · exact hmid
  · intro s hs
    unfold pollStep
    rw [hs]
    cases hflag : s.flag <;> simp [hflag, hs]

/-- Claim C10: every configuration successfully returned by `load_conf`
carries a `some` credential path, so the `logout` branch's unconditional
`unwrap` of `config.token_path` cannot panic. -/
theorem c10_logout_unwrap_safe (env : XdgEnv)
    (parse : String → Except Unit Config) (createOk : Bool) (fs : FsState)
    (config : Config) (fsOut : FsState)
    (h : load_conf env parse createOk fs = (.ok config, fsOut)) :
    config.token_path.isSome = true ∧
    logoutTokenUnwrap config ≠ .error () := by
  have hsome : config.token_path.isSome = true := by
    unfold load_conf at h
    split at h
    · simp at h
    next configPath hcp =>
      split at h
      · split at h
        · exact loadParsePhase_ok_isSome _ _ _ _ _ _ h
        · simp at h
      · exact loadParsePhase_ok_isSome _ _ _ _ _ _ h
  refine ⟨hsome, ?_⟩
  obtain ⟨s, hts⟩ := Option.isSome_iff_exists.mp hsome
  unfold logoutTokenUnwrap
  rw [hts]
  simp

/-! ## Concrete fixtures used by the witnesses -/

/-- A configuration as the parser might return it; its `token_path`
deliberately carries a value "read from the file", to be overwritten. -/
def wConfig : Config :=
  { debug := false, cache_max_seconds := 300, cache_max_items := 20,
    cache_statfs_seconds := 10, sync_interval := 10,
    mount_options := ["fsname=GCSF", "allow_root", "big_writes",
      "max_write=131072"],
    authorize_using_code := false, token_path := some "stale-from-file" }

def wEnv : XdgEnv := ⟨fun name => some ("/cfg/" ++ name)⟩

def wParseOk : String → Except Unit Config := fun _ => .ok wConfig

def wParseBad : String → Except Unit Config := fun _ => .error ()

def wFsEmpty : FsState := ⟨fun _ => none⟩

def wFs1 : FsState :=
  ⟨fun p => if p = "/cfg/gcsf.toml" then some "debug = true\n" else none⟩

def wMountOk : MountEnv := ⟨fun _ => true, fun _ => true, true⟩

def wMountProbeFail : MountEnv := ⟨fun _ => false, fun _ => true, true⟩

def wMountNoHandler : MountEnv := ⟨fun _ => true, fun _ => true, false⟩

theorem c2_token_path_always_derived_witness :
    ({ wConfig with token_path := some "/cfg/auth_token.json" }
        : Config).token_path = some "/cfg/auth_token.json" :=
  c2_token_path_always_derived wEnv wParseOk true wFs1 "/cfg/auth_token.json"
    { wConfig with token_path := some "/cfg/auth_token.json" } wFs1 rfl rfl

theorem c3_idempotent_default_creation_witness :
    (load_conf wEnv wParseOk true wFsEmpty).2.files "/cfg/gcsf.toml"
        = some DEFAULT_CONFIG ∧
    (load_conf wEnv wParseOk true
        ((load_conf wEnv wParseOk true wFsEmpty).2)).2
      = (load_conf wEnv wParseOk true wFsEmpty).2 :=
  (c3_idempotent_default_creation wEnv wParseOk true wFsEmpty
    "/cfg/gcsf.toml" rfl).2 rfl rfl

theorem c4_default_template_written_before_parse_witness :
    (load_conf wEnv wParseOk true wFsEmpty).2.files "/cfg/gcsf.toml"
      = some DEFAULT_CONFIG :=
  (c4_default_template_written_before_parse wEnv wParseOk true wFsEmpty
    "/cfg/gcsf.toml" "/cfg/auth_token.json" rfl rfl rfl rfl).1

theorem c5_probe_isolation_witness :
    Ev.gcsfWithConfig ∉ mount_gcsf wMountProbeFail wConfig ∧
    Ev.realMountAttempt ∉ mount_gcsf wMountProbeFail wConfig :=
  c5_probe_isolation wMountProbeFail wConfig rfl

theorem c6_probe_teardown_before_real_witness :
    Ev.probeSessionDrop ∈ mount_gcsf wMountOk wConfig ∧
    (mount_gcsf wMountOk wConfig).indexOf Ev.probeSessionDrop
      < (mount_gcsf wMountOk wConfig).indexOf Ev.gcsfWithConfig :=
  (c6_probe_teardown_before_real wMountOk wConfig).1 (by decide)

theorem c7_invalid_config_fatal_witness :
    (load_conf wEnv wParseBad true wFs1).1 = .error LoadErr.invalidConfig :=
  c7_invalid_config_fatal wEnv wParseBad true wFs1 "/cfg/gcsf.toml"
    "debug = true\n" "/cfg/auth_token.json" rfl rfl rfl rfl

theorem c8_signal_setup_fatal_witness :
    Ev.waitLoopEnter ∉ mount_gcsf wMountNoHandler wConfig ∧
    (Ev.handlerInstall ∈ mount_gcsf wMountOk wConfig ∧
     Ev.waitLoopEnter ∈ mount_gcsf wMountOk wConfig) :=
  ⟨(c8_signal_setup_fatal wMountNoHandler wConfig).1 rfl,
   (c8_signal_setup_fatal wMountOk wConfig).2 rfl rfl rfl⟩

theorem c9_shutdown_flag_monotone_witness :
    (signalStep (signalStep initLoopState)).flag = false ∧
    (pollStep ⟨false, false⟩).exited = true := by
  obtain ⟨h1, h2, h3, h4, h5⟩ := c9_shutdown_flag_monotone
  refine ⟨?_, ?_⟩
  · exact h4 (signalStep initLoopState) (signalStep (signalStep initLoopState))
      (Relation.ReflTransGen.single (LoopStep.signal _)) (h2 initLoopState).1
  · exact (h5 ⟨false, false⟩ rfl).mpr rfl

theorem c10_logout_unwrap_safe_witness :
    ({ wConfig with token_path := some "/cfg/auth_token.json" }
        : Config).token_path.isSome = true ∧
    logoutTokenUnwrap
        { wConfig with token_path := some "/cfg/auth_token.json" }
      ≠ .error () :=
  c10_logout_unwrap_safe wEnv wParseOk true wFs1
    { wConfig with token_path := some "/cfg/auth_token.json" } wFs1 rfl

end Gcsf
